import Mathlib

set_option autoImplicit false

/-!
Shallow embedding of the eh-pg generic Postgres read-repository
(package `repo`, sqlx backend, `src/unnamed/part_000`): the entity model
and reflective field mapper, the repository operations (Find, FindAll,
FindWithFilter, FindWithFilterUsingIndex, Save, Remove, Clear) and their
error envelopes, together with an honest model of the backing table.

Machine integers of the source are modelled as Lean `Int`/`Nat`;
UUIDs as `Nat` with `0` standing for the zero UUID (`uuid.Nil`).
Each repository operation is translated once with the driver outcome as
an explicit parameter (the `...With` functions, mirroring the control
flow of the Go code), and once composed with the honest table-level
backend (the `...T` functions). Every operation also returns the list of
calls it issued to the database client, each carrying the table name
interpolated into the query text.
-/

deriving instance DecidableEq for Except

namespace EhPg

/-- UUIDs are modelled as natural numbers. -/
abbrev UUID := Nat

/-- The zero UUID, `uuid.Nil` in the source. -/
def uuidNil : UUID := 0

/-- Column values as persisted by the field mapper. -/
inductive Value where
  | vUUID (u : UUID)
  | vInt (n : Int)
  | vStr (s : String)
  | vTime (t : Int)
deriving DecidableEq

/-- A stored row: the field-name/value pairs bound by the statement. -/
abbrev Row := List (String × Value)

/-- The physical table: rows keyed by the `id` primary-key column. -/
abbrev Table := List (UUID × Row)

/-- `mocks.Model` (src/pkg/mocks/mocks.go): the concrete entity type used
by the repository, with db-tagged columns `id`, `version`, `content`,
`created_at`. -/
structure Model where
  id : UUID
  version : Int
  content : String
  createdAt : Int
deriving DecidableEq

/-- `Model.EntityID` returns the ID field. -/
def Model.entityID (m : Model) : UUID := m.id

/-- The reflective field map over the db tags
(`reflectx.NewMapper("db").FieldMap` in `Repo.Save`): each persisted
field name paired with the field value of the entity. -/
def fieldMap (m : Model) : Row :=
  [("id", Value.vUUID m.id), ("version", Value.vInt m.version),
   ("content", Value.vStr m.content), ("created_at", Value.vTime m.createdAt)]

/-- Sentinel errors of the package (`errors.New` values in part_000),
the exported eventhorizon errors, `sql.ErrNoRows`, and opaque
driver-level failures. -/
inductive GoErr where
  | errCouldNotDialDB
  | errCouldNotClearDB
  | errNoDBClient
  | errModelNotSet
  | ehErrEntityNotFound
  | ehErrCouldNotSaveEntity
  | ehErrMissingEntityID
  | ehErrCouldNotRemoveEntity
  | sqlErrNoRows
  | driver (msg : String)
deriving DecidableEq

/-- `eh.RepoError`: the uniform envelope with an error kind (`Err`), an
optional wrapped cause (`BaseErr`) and the namespace in effect. -/
structure RepoError where
  err : GoErr
  baseErr : Option GoErr
  ns : String
deriving DecidableEq

/-- An error value returned by a repository operation: either an
`eh.RepoError` envelope or a bare Go error. -/
inductive OpErr where
  | repoErr (re : RepoError)
  | bare (e : GoErr)
deriving DecidableEq

/-- Whether an operation error is the `eh.RepoError` envelope. -/
def OpErr.isRepoError : OpErr → Bool
  | .repoErr _ => true
  | .bare _ => false

/-- `Config` (part_000): the statically configured table name. The
connection settings are external collaborators and not modelled. -/
structure Config where
  tableName : String
deriving DecidableEq

/-- The namespace-aware name-builder closure installed on `config.dbName`
by `NewRepoWithClient` (part_000 lines 134-137): it appends an underscore
and the context namespace to the configured table name. -/
def dbName (cfg : Config) (ns : String) : String :=
  cfg.tableName ++ "_" ++ ns

/-- `Repo` (part_000): client handle, config, optional entity factory. In
this pure embedding the factory function is represented by the zero-value
entity it returns on each call. -/
structure Repo where
  client : Nat
  config : Config
  factoryFn : Option Model
deriving DecidableEq

/-- `NewRepoWithClient` (part_000 lines 124-140): a nil client is rejected
with the bare sentinel `ErrNoDBClient`; otherwise the repository is built
with no factory yet (the `dbName` closure it installs is the function
`dbName` above). -/
def NewRepoWithClient (config : Config) (client : Option Nat) :
    Except OpErr Repo :=
  match client with
  | none => .error (.bare .errNoDBClient)
  | some c => .ok { client := c, config := config, factoryFn := none }

/-- `Repo.SetEntityFactory` (part_000 lines 325-327). -/
def Repo.setEntityFactory (r : Repo) (f : Model) : Repo :=
  { r with factoryFn := some f }

/-- One call issued to the database client, carrying the table name that
the operation interpolated into its query text. -/
inductive BackendCall where
  | getByID (table : String) (id : UUID)
  | queryAll (table : String)
  | namedExec (table : String)
  | execDelete (table : String) (id : UUID)
  | txDeleteAll (table : String)
deriving DecidableEq

/-- The table name a backend call targets. -/
def BackendCall.table : BackendCall → String
  | .getByID t _ => t
  | .queryAll t => t
  | .namedExec t => t
  | .execDelete t _ => t
  | .txDeleteAll t => t

/-- `SELECT * FROM t WHERE id=$1`: the row with the matching primary key. -/
def selectByID (t : Table) (id : UUID) : Option Row :=
  (t.find? (fun p => p.1 == id)).map (fun p => p.2)

/-- `INSERT INTO t (..) VALUES (..) ON CONFLICT (id) DO UPDATE SET
f = EXCLUDED.f, ..`: replace the row with this primary key, or append a
new row. -/
def upsertRow : Table → UUID → Row → Table
  | [], id, row => [(id, row)]
  | (i, r) :: rest, id, row =>
      if i == id then (id, row) :: rest else (i, r) :: upsertRow rest id row

/-- `DELETE FROM t WHERE id = $1`: drop the matching rows. -/
def deleteByID (t : Table) (id : UUID) : Table :=
  t.filter (fun p => p.1 != id)

/-- Rows-affected count reported for `DELETE FROM t WHERE id = $1`. -/
def countByID (t : Table) (id : UUID) : Nat :=
  (t.filter (fun p => p.1 == id)).length

/-- Struct-scanning one column into a `mocks.Model` (sqlx populating the
db-tagged field with the column value). -/
def setField (m : Model) (f : String × Value) : Model :=
  match f with
  | ("id", Value.vUUID u) => { m with id := u }
  | ("version", Value.vInt n) => { m with version := n }
  | ("content", Value.vStr s) => { m with content := s }
  | ("created_at", Value.vTime ts) => { m with createdAt := ts }
  | _ => m

/-- Populate a freshly factory-created entity from a stored row. -/
def populate (m : Model) (row : Row) : Model :=
  row.foldl setField m

/-- Outcome of a write statement: a driver error from the Exec call, or a
result whose `RowsAffected` reports a count and possibly its own error. -/
inductive ExecOutcome where
  | err (e : GoErr)
  | ok (affected : Int) (rowsErr : Option GoErr)
deriving DecidableEq

/-- The underlying cause carried by a failing write outcome: the Exec
error, or the `RowsAffected` error when present. -/
def execCause : ExecOutcome → Option GoErr
  | .err e => some e
  | .ok _ rowsErr => rowsErr

/-- `Repo.Find` (part_000 lines 147-170), with the outcome of the
`GetContext` call passed explicitly: a scanned row, or a driver error
(zero matching rows arrive as `sql.ErrNoRows`). Requires the factory;
any error from the client is wrapped as `eh.ErrEntityNotFound`. -/
def Repo.findWith (r : Repo) (ns : String) (id : UUID)
    (res : Except GoErr Row) : Except OpErr Model × List BackendCall :=
  match r.factoryFn with
  | none => (.error (.repoErr ⟨.errModelNotSet, none, ns⟩), [])
  | some entity =>
    match res with
    | .error e =>
        (.error (.repoErr ⟨.ehErrEntityNotFound, some e, ns⟩),
         [.getByID r.config.tableName id])
    | .ok row =>
        (.ok (populate entity row), [.getByID r.config.tableName id])

/-- `Repo.Find` composed with the honest backend: the select returns the
single row with matching identifier, or `sql.ErrNoRows` when absent. -/
def Repo.findT (r : Repo) (ns : String) (id : UUID) (t : Table) :
    Except OpErr Model × List BackendCall :=
  r.findWith ns id
    (match selectByID t id with
     | none => .error .sqlErrNoRows
     | some row => .ok row)

/-- The row loop of `Repo.FindAll` (part_000 lines 189-197): scan each row
into a freshly created entity; a scan failure aborts the whole call with
the bare scan error (line 192). -/
def scanRows (entity : Model) :
    List (Except GoErr Row) → Except GoErr (List Model)
  | [] => .ok []
  | .error e :: _ => .error e
  | .ok row :: rest =>
      match scanRows entity rest with
      | .error e => .error e
      | .ok ms => .ok (populate entity row :: ms)

/-- `Repo.FindAll` (part_000 lines 173-208), with the outcome of the
`QueryxContext` call passed explicitly: a query error (no rows to scan),
or the per-row scan outcomes. A query error is wrapped as
`eh.ErrEntityNotFound`; a row-scan failure is returned bare. -/
def Repo.findAllWith (r : Repo) (ns : String)
    (qres : Except GoErr (List (Except GoErr Row))) :
    Except OpErr (List Model) × List BackendCall :=
  match r.factoryFn with
  | none => (.error (.repoErr ⟨.errModelNotSet, none, ns⟩), [])
  | some entity =>
    match qres with
    | .error e =>
        (.error (.repoErr ⟨.ehErrEntityNotFound, some e, ns⟩),
         [.queryAll r.config.tableName])
    | .ok scans =>
        match scanRows entity scans with
        | .error e => (.error (.bare e), [.queryAll r.config.tableName])
        | .ok ms => (.ok ms, [.queryAll r.config.tableName])

/-- `Repo.FindAll` composed with the honest backend: every stored row is
returned and scans cleanly, in table order. -/
def Repo.findAllT (r : Repo) (ns : String) (t : Table) :
    Except OpErr (List Model) × List BackendCall :=
  r.findAllWith ns (.ok (t.map (fun p => .ok p.2)))

/-- `IndexInput` (part_000 lines 330-336): parameters for a filtered
index query. -/
structure IndexInput where
  indexName : String
  partitionKey : String
  sortKey : String
deriving DecidableEq

/-- `Repo.FindWithFilter` (part_000 lines 211-221): after the factory
check, the stub returns a nil entity slice and a nil error; no query is
issued. -/
def Repo.findWithFilter (r : Repo) (ns : String) (expr : String) :
    Except OpErr (List Model) × List BackendCall :=
  match r.factoryFn with
  | none => (.error (.repoErr ⟨.errModelNotSet, none, ns⟩), [])
  | some _ => (.ok [], [])

/-- `Repo.FindWithFilterUsingIndex` (part_000 lines 224-235): same stub
behavior as `FindWithFilter`. -/
def Repo.findWithFilterUsingIndex (r : Repo) (ns : String)
    (indexInput : IndexInput) (filterQuery : String) :
    Except OpErr (List Model) × List BackendCall :=
  match r.factoryFn with
  | none => (.error (.repoErr ⟨.errModelNotSet, none, ns⟩), [])
  | some _ => (.ok [], [])

/-- `Repo.Save` (part_000 lines 238-298), with the exec outcome passed
explicitly. A zero entity id is rejected before any client call, wrapped
as `eh.ErrCouldNotSaveEntity` over `eh.ErrMissingEntityID`; otherwise the
reflective upsert is executed and exactly one affected row is required
(an error from `RowsAffected`, or any other count, also fails the save).
There is no factory check. -/
def Repo.saveWith (r : Repo) (ns : String) (entity : Model)
    (outcome : ExecOutcome) : Option OpErr × List BackendCall :=
  if entity.entityID == uuidNil then
    (some (.repoErr ⟨.ehErrCouldNotSaveEntity, some .ehErrMissingEntityID, ns⟩),
     [])
  else
    match outcome with
    | .err e =>
        (some (.repoErr ⟨.ehErrCouldNotSaveEntity, some e, ns⟩),
         [.namedExec r.config.tableName])
    | .ok affected rowsErr =>
        if rowsErr.isSome || affected != 1 then
          (some (.repoErr ⟨.ehErrCouldNotSaveEntity, rowsErr, ns⟩),
           [.namedExec r.config.tableName])
        else (none, [.namedExec r.config.tableName])

/-- `Repo.Save` composed with the honest backend: when the guard passes,
the `ON CONFLICT` upsert stores the full field map of the entity under
its id and reports exactly one affected row. -/
def Repo.saveT (r : Repo) (ns : String) (entity : Model) (t : Table) :
    Option OpErr × Table × List BackendCall :=
  let res := r.saveWith ns entity (.ok 1 none)
  if entity.entityID == uuidNil then (res.1, t, res.2)
  else (res.1, upsertRow t entity.entityID (fieldMap entity), res.2)

/-- `Repo.Remove` (part_000 lines 301-322), with the exec outcome passed
explicitly. There is no factory check; the delete is always issued. A
driver error is wrapped as `eh.ErrCouldNotRemoveEntity`; an affected
count other than one as `eh.ErrEntityNotFound`. -/
def Repo.removeWith (r : Repo) (ns : String) (id : UUID)
    (outcome : ExecOutcome) : Option OpErr × List BackendCall :=
  match outcome with
  | .err e =>
      (some (.repoErr ⟨.ehErrCouldNotRemoveEntity, some e, ns⟩),
       [.execDelete r.config.tableName id])
  | .ok affected rowsErr =>
      if affected != 1 then
        (some (.repoErr ⟨.ehErrEntityNotFound, rowsErr, ns⟩),
         [.execDelete r.config.tableName id])
      else (none, [.execDelete r.config.tableName id])

/-- `Repo.Remove` composed with the honest backend: the reported affected
count is the number of rows carrying this primary key. -/
def Repo.removeT (r : Repo) (ns : String) (id : UUID) (t : Table) :
    Option OpErr × Table × List BackendCall :=
  let res := r.removeWith ns id (.ok (countByID t id) none)
  (res.1, deleteByID t id, res.2)

/-- `Repo.Clear` (part_000 lines 339-350), with the commit outcome passed
explicitly: delete every row in one transaction; a commit failure is
wrapped as `ErrCouldNotClearDB`. -/
def Repo.clearWith (r : Repo) (ns : String) (commitErr : Option GoErr) :
    Option OpErr × List BackendCall :=
  match commitErr with
  | some e =>
      (some (.repoErr ⟨.errCouldNotClearDB, some e, ns⟩),
       [.txDeleteAll r.config.tableName])
  | none => (none, [.txDeleteAll r.config.tableName])

/-- The error kind carried by an operation error: the `Err` field of the
`RepoError` envelope, or the bare error itself. -/
def OpErr.errKind : OpErr → GoErr
  | .repoErr re => re.err
  | .bare e => e

/-- The namespace attached to an operation error, when it is a
`RepoError` envelope. -/
def OpErr.nsOf : OpErr → Option String
  | .repoErr re => some re.ns
  | .bare _ => none

/-- A zero-value `mocks.Model`, as produced by the entity factory of the
integration test. -/
def m0W : Model := { id := 0, version := 0, content := "", createdAt := 0 }

/-- A sample entity with a non-zero identifier. -/
def e1W : Model := { id := 1, version := 1, content := "entity1", createdAt := 100 }

/-- A second sample entity with a distinct non-zero identifier. -/
def e2W : Model := { id := 2, version := 1, content := "entity2", createdAt := 100 }

/-- The configuration used by the integration test. -/
def cfgW : Config := { tableName := "models" }

/-- A repository with the factory set. -/
def repoW : Repo := { client := 1, config := cfgW, factoryFn := some m0W }

/-- A repository before `SetEntityFactory` has been called. -/
def rNoFactoryW : Repo := { client := 1, config := cfgW, factoryFn := none }

/-! ## Basic lemmas about the table model and the field mapper -/

/-- After an upsert, selecting the same key returns the new row. -/
theorem selectByID_upsertRow (t : Table) (id : UUID) (row : Row) :
    selectByID (upsertRow t id row) id = some row := by
  induction t with
  | nil => simp [selectByID, upsertRow, List.find?]
  | cons p rest ih =>
    by_cases h : p.1 == id
    · simp [upsertRow, h, selectByID, List.find?]
    · cases p with
      | mk i r =>
        simp only at h
        simp [upsertRow, h, selectByID, List.find?, ih]
        simpa [selectByID] using ih

/-- Scanning the full field map of an entity into any freshly created
instance reconstructs the entity, field for field. -/
theorem populate_fieldMap (m e : Model) : populate m (fieldMap e) = e := by
  cases e
  rfl

/-- After deleting a key, no row with that key remains. -/
theorem countByID_deleteByID (t : Table) (id : UUID) :
    countByID (deleteByID t id) id = 0 := by
  induction t with
  | nil => rfl
  | cons p rest ih =>
    by_cases h : p.1 = id
    · show countByID (List.filter (fun q => q.1 != id) (p :: rest)) id = 0
      rw [List.filter_cons]
      simp only [h, bne_self_eq_false, Bool.false_eq_true, if_false]
      exact ih
    · show countByID (List.filter (fun q => q.1 != id) (p :: rest)) id = 0
      rw [List.filter_cons]
      have hb : (p.1 != id) = true := by simp [h]
      simp only [hb, if_true]
      show (List.filter (fun q => q.1 == id)
        (p :: List.filter (fun q => q.1 != id) rest)).length = 0
      rw [List.filter_cons]
      have hb2 : (p.1 == id) = false := by simp [h]
      simp only [hb2, Bool.false_eq_true, if_false]
      exact ih

/-- A scan failure reported by the row loop is one of the scan outcomes. -/
theorem scanRows_error_mem (entity : Model)
    (scans : List (Except GoErr Row)) (e : GoErr)
    (h : scanRows entity scans = .error e) : Except.error e ∈ scans := by
  induction scans with
  | nil => simp [scanRows] at h
  | cons s rest ih =>
    cases s with
    | error e' =>
      simp [scanRows] at h
      subst h
      exact List.mem_cons_self _ _
    | ok row =>
      simp only [scanRows] at h
      cases hrec : scanRows entity rest with
      | error e' =>
        rw [hrec] at h
        simp at h
        subst h
        exact List.mem_cons_of_mem _ (ih hrec)
      | ok ms =>
        rw [hrec] at h
        simp at h

/-- Scanning an all-clean list of rows yields one populated entity per
row, in order. -/
theorem scanRows_ok (entity : Model) (rows : List Row) :
    scanRows entity (rows.map (fun row => .ok row)) =
      .ok (rows.map (fun row => populate entity row)) := by
  induction rows with
  | nil => rfl
  | cons row rest ih => simp [scanRows, ih]

/-- Every error produced by `Repo.Save` is an `eh.RepoError` of kind
`eh.ErrCouldNotSaveEntity` carrying the call namespace. -/
theorem saveWith_some (r : Repo) (ns : String) (e : Model)
    (outcome : ExecOutcome) (oe : OpErr)
    (h : (r.saveWith ns e outcome).1 = some oe) :
    ∃ be, oe = .repoErr ⟨.ehErrCouldNotSaveEntity, be, ns⟩ := by
  unfold Repo.saveWith at h
  by_cases hg : (e.entityID == uuidNil) = true
  · simp [hg] at h
    exact ⟨_, h.symm⟩
  · cases outcome with
    | err ge =>
      simp [hg] at h
      exact ⟨_, h.symm⟩
    | ok affected rowsErr =>
      by_cases hc : (rowsErr.isSome || affected != 1) = true
      · simp [hg, hc] at h
        exact ⟨_, h.symm⟩
      · simp [hg, hc] at h

/-- Every error produced by `Repo.Remove` is an `eh.RepoError` carrying
the call namespace. -/
theorem removeWith_some (r : Repo) (ns : String) (id : UUID)
    (outcome : ExecOutcome) (oe : OpErr)
    (h : (r.removeWith ns id outcome).1 = some oe) :
    ∃ k be, oe = .repoErr ⟨k, be, ns⟩ := by
  unfold Repo.removeWith at h
  cases outcome with
  | err ge =>
    simp at h
    exact ⟨_, _, h.symm⟩
  | ok affected rowsErr =>
    by_cases hc : (affected != 1) = true
    · simp [hc] at h
      exact ⟨_, _, h.symm⟩
    · simp [hc] at h

/-! ## Claim theorems -/

/-- Claim C10: constructing a repository with `NewRepoWithClient` and a
nil client returns the bare sentinel `ErrNoDBClient` — not wrapped in a
`RepoError` envelope and carrying no namespace — and no repository; for
every non-nil client it returns a repository (bound to the given config)
and no error. -/
theorem newRepoWithClient_spec (cfg : Config) (c : Nat) :
    NewRepoWithClient cfg none = .error (.bare .errNoDBClient) ∧
    (OpErr.bare .errNoDBClient).isRepoError = false ∧
    (OpErr.bare .errNoDBClient).nsOf = none ∧
    ∃ r : Repo, NewRepoWithClient cfg (some c) = .ok r ∧ r.config = cfg :=
  ⟨rfl, rfl, rfl, _, rfl, rfl⟩

/-- Claim C2: saving an entity whose identifier is the zero UUID returns a
`RepoError` whose kind is `eh.ErrCouldNotSaveEntity` and whose nested
cause is `eh.ErrMissingEntityID`, issues no backend call, and persists no
row; moreover `MissingEntityID` is never the outer kind of any `Save`
error — every `Save` error has outer kind `CouldNotSaveEntity`. -/
theorem save_zero_id_spec (r : Repo) (ns : String) (e : Model) (t : Table)
    (outcome : ExecOutcome) (h : e.entityID = uuidNil) :
    r.saveWith ns e outcome =
      (some (.repoErr
        ⟨.ehErrCouldNotSaveEntity, some .ehErrMissingEntityID, ns⟩), []) ∧
    (r.saveT ns e t).2.1 = t ∧
    (∀ (e2 : Model) (outcome2 : ExecOutcome) (oe : OpErr),
      (r.saveWith ns e2 outcome2).1 = some oe →
      oe.isRepoError = true ∧ oe.errKind = .ehErrCouldNotSaveEntity ∧
        oe.nsOf = some ns) := by
  refine ⟨?_, ?_, ?_⟩
  · simp [Repo.saveWith, h]
  · simp [Repo.saveT, h]
  · intro e2 outcome2 oe hsome
    obtain ⟨be, rfl⟩ := saveWith_some r ns e2 outcome2 oe hsome
    exact ⟨rfl, rfl, rfl⟩

/-- Witness for C2 at a concrete zero-id entity and a non-empty prior
table. -/
theorem save_zero_id_witness :
    repoW.saveWith "ns" m0W (.ok 1 none) =
      (some (.repoErr
        ⟨.ehErrCouldNotSaveEntity, some .ehErrMissingEntityID, "ns"⟩), []) ∧
    (repoW.saveT "ns" m0W [(5, [])]).2.1 = [(5, [])] ∧
    (OpErr.repoErr
        ⟨.ehErrCouldNotSaveEntity, some .ehErrMissingEntityID, "ns"⟩).errKind =
      .ehErrCouldNotSaveEntity := by
  have h := save_zero_id_spec repoW "ns" m0W [(5, [])] (.ok 1 none) rfl
  exact ⟨h.1, h.2.1, (h.2.2 m0W (.ok 1 none) _ rfl).2.1⟩

/-- Claim C3: for an entity with a non-zero identifier, `Save` returns nil
exactly when the write reports one affected row (with `RowsAffected`
itself succeeding); a zero or larger count, or a driver error, yields a
`RepoError` of kind `eh.ErrCouldNotSaveEntity` wrapping the underlying
cause of the outcome. -/
theorem save_one_row_spec (r : Repo) (ns : String) (e : Model)
    (outcome : ExecOutcome) (hid : e.entityID ≠ uuidNil) :
    ((r.saveWith ns e outcome).1 = none ↔ outcome = .ok 1 none) ∧
    (∀ oe, (r.saveWith ns e outcome).1 = some oe →
      oe = .repoErr ⟨.ehErrCouldNotSaveEntity, execCause outcome, ns⟩) := by
  have hg : (e.entityID == uuidNil) = false := by simpa using hid
  cases outcome with
  | err ge =>
    constructor
    · constructor
      · intro h
        simp [Repo.saveWith, hg] at h
      · intro h
        simp at h
    · intro oe h
      simp [Repo.saveWith, hg] at h
      simp [execCause, ← h]
  | ok affected rowsErr =>
    cases rowsErr with
    | some ge =>
      constructor
      · constructor
        · intro h
          simp [Repo.saveWith, hg] at h
        · intro h
          simp at h
      · intro oe h
        simp [Repo.saveWith, hg] at h
        simp [execCause, ← h]
    | none =>
      by_cases ha : affected = 1
      · subst ha
        constructor
        · simp [Repo.saveWith, hg]
        · intro oe h
          simp [Repo.saveWith, hg] at h
      · constructor
        · constructor
          · intro h
            simp [Repo.saveWith, hg, ha] at h
          · intro h
            simp [ha] at h
        · intro oe h
          simp [Repo.saveWith, hg, ha] at h
          simp [execCause, ← h]

/-- Witness for C3: a one-row write succeeds; a zero-row write fails with
`CouldNotSaveEntity` (here with no underlying cause to wrap). -/
theorem save_one_row_witness :
    (repoW.saveWith "" e1W (.ok 1 none)).1 = none ∧
    (repoW.saveWith "" e1W (.ok 0 none)).1 =
      some (.repoErr
        ⟨.ehErrCouldNotSaveEntity, execCause (.ok 0 none), ""⟩) := by
  constructor
  · exact (save_one_row_spec repoW "" e1W (.ok 1 none) (by decide)).1.mpr rfl
  · have h := (save_one_row_spec repoW "" e1W (.ok 0 none) (by decide)).2
      (.repoErr ⟨.ehErrCouldNotSaveEntity, none, ""⟩) rfl
    rw [← h]
    rfl

/-- Claim C4: `Find` with the factory unset returns a `RepoError` of kind
`ErrModelNotSet`; with the factory set, a driver error (zero matching
rows arrive as `sql.ErrNoRows`) yields a `RepoError` of kind
`eh.ErrEntityNotFound` wrapping the cause and no entity, while a matching
row yields the factory-created entity populated field-for-field from the
stored row. -/
theorem find_spec (r : Repo) (ns : String) (id : UUID)
    (res : Except GoErr Row) :
    (r.factoryFn = none →
      r.findWith ns id res =
        (.error (.repoErr ⟨.errModelNotSet, none, ns⟩), [])) ∧
    (∀ m0, r.factoryFn = some m0 →
      (∀ ge, res = .error ge →
        (r.findWith ns id res).1 =
          .error (.repoErr ⟨.ehErrEntityNotFound, some ge, ns⟩)) ∧
      (∀ row, res = .ok row →
        (r.findWith ns id res).1 = .ok (populate m0 row)) ∧
      (∀ t : Table, selectByID t id = none →
        (r.findT ns id t).1 =
          .error (.repoErr ⟨.ehErrEntityNotFound, some .sqlErrNoRows, ns⟩)) ∧
      (∀ (t : Table) (row : Row), selectByID t id = some row →
        (r.findT ns id t).1 = .ok (populate m0 row))) := by
  constructor
  · intro h
    simp [Repo.findWith, h]
  · intro m0 hf
    refine ⟨?_, ?_, ?_, ?_⟩
    · intro ge hres
      simp [Repo.findWith, hf, hres]
    · intro row hres
      simp [Repo.findWith, hf, hres]
    · intro t hsel
      simp [Repo.findT, Repo.findWith, hf, hsel]
    · intro t row hsel
      simp [Repo.findT, Repo.findWith, hf, hsel]

/-- Witness for C4 at concrete inputs: unset factory, driver error, clean
row, and the empty table. -/
theorem find_spec_witness :
    rNoFactoryW.findWith "" 9 (.ok (fieldMap e1W)) =
      (.error (.repoErr ⟨.errModelNotSet, none, ""⟩), []) ∧
    (repoW.findWith "n" 9 (.error (.driver "x"))).1 =
      .error (.repoErr ⟨.ehErrEntityNotFound, some (.driver "x"), "n"⟩) ∧
    (repoW.findWith "n" 1 (.ok (fieldMap e1W))).1 =
      .ok (populate m0W (fieldMap e1W)) ∧
    (repoW.findT "n" 9 []).1 =
      .error (.repoErr ⟨.ehErrEntityNotFound, some .sqlErrNoRows, "n"⟩) := by
  have h1 := find_spec rNoFactoryW "" 9 (.ok (fieldMap e1W))
  have h2 := find_spec repoW "n" 9 (.error (.driver "x"))
  have h3 := find_spec repoW "n" 1 (.ok (fieldMap e1W))
  exact ⟨h1.1 rfl, (h2.2 m0W rfl).1 _ rfl, (h3.2 m0W rfl).2.1 _ rfl,
    (h2.2 m0W rfl).2.2.1 [] rfl⟩

/-- Claim C5: `Remove` succeeds exactly when one row was deleted; zero
affected rows yield a `RepoError` of kind `eh.ErrEntityNotFound` (in
particular a second `Remove` of the same id is a reported failure, never
a silent success), and a driver failure yields a `RepoError` of kind
`eh.ErrCouldNotRemoveEntity` wrapping the cause. -/
theorem remove_spec (r : Repo) (ns : String) (id : UUID) (t : Table) :
    ((r.removeT ns id t).1 = none ↔ countByID t id = 1) ∧
    (countByID t id = 0 →
      (r.removeT ns id t).1 =
        some (.repoErr ⟨.ehErrEntityNotFound, none, ns⟩)) ∧
    ((r.removeT ns id ((r.removeT ns id t).2.1)).1 =
      some (.repoErr ⟨.ehErrEntityNotFound, none, ns⟩)) ∧
    (∀ ge, (r.removeWith ns id (.err ge)).1 =
      some (.repoErr ⟨.ehErrCouldNotRemoveEntity, some ge, ns⟩)) := by
  have key : ∀ (c : Nat), (r.removeWith ns id (.ok (c : Int) none)).1 =
      if c = 1 then none
      else some (.repoErr ⟨.ehErrEntityNotFound, none, ns⟩) := by
    intro c
    by_cases hc : c = 1
    · simp [Repo.removeWith, hc]
    · have hb : ((c : Int) != 1) = true := by
        simp only [bne_iff_ne, ne_eq]
        exact_mod_cast hc
      simp [Repo.removeWith, hb, hc]
  refine ⟨?_, ?_, ?_, ?_⟩
  · show ((r.removeWith ns id (.ok (countByID t id : Int) none)).1 = none ↔ _)
    rw [key]
    by_cases hc : countByID t id = 1 <;> simp [hc]
  · intro h0
    show (r.removeWith ns id (.ok (countByID t id : Int) none)).1 = _
    rw [key]
    simp [h0]
  · show (r.removeWith ns id
      (.ok (countByID ((r.removeT ns id t).2.1) id : Int) none)).1 = _
    have h2 : (r.removeT ns id t).2.1 = deleteByID t id := rfl
    rw [h2, key, countByID_deleteByID]
    simp
  · intro ge
    simp [Repo.removeWith]

/-- Witness for C5: removing a present row succeeds; removing from a
table without the row, and a second remove of the same id, report
`EntityNotFound`; a driver failure reports `CouldNotRemoveEntity`. -/
theorem remove_spec_witness :
    (repoW.removeT "" 1 [(1, fieldMap e1W)]).1 = none ∧
    (repoW.removeT "" 2 [(1, fieldMap e1W)]).1 =
      some (.repoErr ⟨.ehErrEntityNotFound, none, ""⟩) ∧
    (repoW.removeT "" 1 ((repoW.removeT "" 1 [(1, fieldMap e1W)]).2.1)).1 =
      some (.repoErr ⟨.ehErrEntityNotFound, none, ""⟩) ∧
    (repoW.removeWith "" 1 (.err (.driver "x"))).1 =
      some (.repoErr ⟨.ehErrCouldNotRemoveEntity, some (.driver "x"), ""⟩) := by
  have h1 := remove_spec repoW "" 1 [(1, fieldMap e1W)]
  have h2 := remove_spec repoW "" 2 [(1, fieldMap e1W)]
  exact ⟨h1.1.mpr (by decide), h2.2.1 (by decide), h1.2.2.1, h1.2.2.2 _⟩

/-- Claim C1: for every entity with a non-zero identifier and every prior
table state, `Save` succeeds and a subsequent `Find` of the entity id
returns an entity field-for-field equal to the saved one; since the prior
state is arbitrary, re-saving an existing identifier with different field
values fully replaces the stored record (no field-level merge, no version
comparison) and a subsequent `Find` reflects only the latest values. -/
theorem save_find_roundtrip (r : Repo) (ns ns2 : String) (e m0 : Model)
    (t : Table) (hid : e.entityID ≠ uuidNil) (hf : r.factoryFn = some m0) :
    (r.saveT ns e t).1 = none ∧
    (r.findT ns2 e.entityID (r.saveT ns e t).2.1).1 = .ok e := by
  have hg : (e.entityID == uuidNil) = false := by simpa using hid
  constructor
  · simp [Repo.saveT, Repo.saveWith, hg]
  · have htab : (r.saveT ns e t).2.1 =
        upsertRow t e.entityID (fieldMap e) := by
      simp [Repo.saveT, hg]
    rw [htab]
    simp [Repo.findT, Repo.findWith, hf, selectByID_upsertRow,
      populate_fieldMap]

/-- Witness for C1: saving over a table that already stores a different
record under the same id, then finding it. -/
theorem save_find_roundtrip_witness :
    (repoW.saveT "" e1W [(1, fieldMap e2W)]).1 = none ∧
    (repoW.findT "ns" e1W.entityID
      (repoW.saveT "" e1W [(1, fieldMap e2W)]).2.1).1 = .ok e1W :=
  save_find_roundtrip repoW "" "ns" e1W m0W [(1, fieldMap e2W)]
    (by decide) rfl

/-- Claim C6: with the factory set, `FindAll` returns one factory-created
entity per stored row and no error: the empty table yields the empty
sequence, and after saving two entities with distinct non-zero ids into
an empty table it returns exactly those two entities, in some order. -/
theorem findAll_spec (r : Repo) (ns : String) (m0 : Model)
    (hf : r.factoryFn = some m0) :
    ((r.findAllT ns []).1 = .ok []) ∧
    (∀ t : Table, (r.findAllT ns t).1 =
      .ok (t.map (fun p => populate m0 p.2))) ∧
    (∀ e1 e2 : Model, e1.entityID ≠ uuidNil → e2.entityID ≠ uuidNil →
      e1.entityID ≠ e2.entityID →
      ∃ l, (r.findAllT ns
          ((r.saveT ns e2 ((r.saveT ns e1 []).2.1)).2.1)).1 = .ok l ∧
        l.Perm [e1, e2]) := by
  have hall : ∀ t : Table, (r.findAllT ns t).1 =
      .ok (t.map (fun p => populate m0 p.2)) := by
    intro t
    have h1 : t.map (fun p => Except.ok (ε := GoErr) p.2) =
        (t.map (fun p => p.2)).map (fun row => .ok row) := by
      simp [List.map_map]
    simp only [Repo.findAllT, Repo.findAllWith, hf]
    rw [h1, scanRows_ok]
    simp [List.map_map, Function.comp]
  refine ⟨hall [], hall, ?_⟩
  intro e1 e2 h1 h2 h12
  have hg1 : (e1.entityID == uuidNil) = false := by simpa using h1
  have hg2 : (e2.entityID == uuidNil) = false := by simpa using h2
  have hne : (e1.entityID == e2.entityID) = false := by simpa using h12
  have ht1 : (r.saveT ns e1 []).2.1 = [(e1.entityID, fieldMap e1)] := by
    simp [Repo.saveT, hg1, upsertRow]
  have ht2 : (r.saveT ns e2 [(e1.entityID, fieldMap e1)]).2.1 =
      [(e1.entityID, fieldMap e1), (e2.entityID, fieldMap e2)] := by
    simp [Repo.saveT, hg2, upsertRow, hne]
  refine ⟨[e1, e2], ?_, List.Perm.refl _⟩
  rw [ht1, ht2, hall]
  simp [populate_fieldMap]

/-- Witness for C6: the empty table, and a concrete two-row table. -/
theorem findAll_spec_witness :
    (repoW.findAllT "" []).1 = .ok [] ∧
    (repoW.findAllT "" [(1, fieldMap e1W), (2, fieldMap e2W)]).1 =
      .ok [e1W, e2W] := by
  have h := findAll_spec repoW "" m0W rfl
  refine ⟨h.1, ?_⟩
  rw [h.2.1 [(1, fieldMap e1W), (2, fieldMap e2W)]]
  rfl

/-- The configured table name is never equal to the output of the
namespace-aware name builder, whatever the namespace. -/
theorem tableName_ne_dbName (cfg : Config) (ns : String) :
    cfg.tableName ≠ dbName cfg ns := by
  intro h
  have h2 := congrArg String.length h
  rw [dbName, String.length_append, String.length_append] at h2
  have h3 : ("_" : String).length = 1 := rfl
  omega

/-- Every call issued by `Repo.Find` targets the configured table. -/
theorem findWith_calls (r : Repo) (ns : String) (id : UUID)
    (res : Except GoErr Row) :
    ∀ c ∈ (r.findWith ns id res).2, c.table = r.config.tableName := by
  intro c hc
  unfold Repo.findWith at hc
  cases hf : r.factoryFn with
  | none => simp [hf] at hc
  | some m0 =>
    cases res with
    | error ge =>
      simp [hf] at hc
      simp [hc, BackendCall.table]
    | ok row =>
      simp [hf] at hc
      simp [hc, BackendCall.table]

/-- Every call issued by `Repo.FindAll` targets the configured table. -/
theorem findAllWith_calls (r : Repo) (ns : String)
    (qres : Except GoErr (List (Except GoErr Row))) :
    ∀ c ∈ (r.findAllWith ns qres).2, c.table = r.config.tableName := by
  intro c hc
  unfold Repo.findAllWith at hc
  cases hf : r.factoryFn with
  | none => simp [hf] at hc
  | some m0 =>
    cases qres with
    | error ge =>
      simp [hf] at hc
      simp [hc, BackendCall.table]
    | ok scans =>
      simp only [hf] at hc
      cases hs : scanRows m0 scans <;>
        · rw [hs] at hc
          simp at hc
          simp [hc, BackendCall.table]

/-- Every call issued by `Repo.Save` targets the configured table. -/
theorem saveWith_calls (r : Repo) (ns : String) (e : Model)
    (outcome : ExecOutcome) :
    ∀ c ∈ (r.saveWith ns e outcome).2, c.table = r.config.tableName := by
  intro c hc
  unfold Repo.saveWith at hc
  by_cases hg : (e.entityID == uuidNil) = true
  · simp [hg] at hc
  · cases outcome with
    | err ge =>
      simp [hg] at hc
      simp [hc, BackendCall.table]
    | ok a re =>
      simp only [hg, Bool.false_eq_true, if_false] at hc
      by_cases h2 : (re.isSome || a != 1) = true <;>
        · simp [h2] at hc
          simp [hc, BackendCall.table]

/-- Every call issued by `Repo.Remove` targets the configured table. -/
theorem removeWith_calls (r : Repo) (ns : String) (id : UUID)
    (outcome : ExecOutcome) :
    ∀ c ∈ (r.removeWith ns id outcome).2, c.table = r.config.tableName := by
  intro c hc
  unfold Repo.removeWith at hc
  cases outcome with
  | err ge =>
    simp at hc
    simp [hc, BackendCall.table]
  | ok a re =>
    by_cases h2 : (a != 1) = true <;>
      · simp [h2] at hc
        simp [hc, BackendCall.table]

/-- Every call issued by `Repo.Clear` targets the configured table. -/
theorem clearWith_calls (r : Repo) (ns : String) (commitErr : Option GoErr) :
    ∀ c ∈ (r.clearWith ns commitErr).2, c.table = r.config.tableName := by
  intro c hc
  unfold Repo.clearWith at hc
  cases commitErr <;>
    · simp at hc
      simp [hc, BackendCall.table]

/-- Claim C7: for every operation of one repository instance (Find,
FindAll, Save, Remove, Clear) and every context namespace, each query
issued targets exactly the statically configured table name, never the
namespace-suffixed name produced by the installed name builder; and the
calls issued do not depend on the namespace, which therefore only enters
the diagnostic field of returned errors. -/
theorem table_name_static (r : Repo) (ns ns2 : String) (id : UUID)
    (e : Model) (res : Except GoErr Row)
    (qres : Except GoErr (List (Except GoErr Row)))
    (outcome : ExecOutcome) (commitErr : Option GoErr) :
    (∀ c ∈ (r.findWith ns id res).2 ++ (r.findAllWith ns qres).2 ++
        (r.saveWith ns e outcome).2 ++ (r.removeWith ns id outcome).2 ++
        (r.clearWith ns commitErr).2,
      c.table = r.config.tableName ∧
        ∀ ns3, c.table ≠ dbName r.config ns3) ∧
    ((r.findWith ns id res).2 = (r.findWith ns2 id res).2 ∧
     (r.findAllWith ns qres).2 = (r.findAllWith ns2 qres).2 ∧
     (r.saveWith ns e outcome).2 = (r.saveWith ns2 e outcome).2 ∧
     (r.removeWith ns id outcome).2 = (r.removeWith ns2 id outcome).2 ∧
     (r.clearWith ns commitErr).2 = (r.clearWith ns2 commitErr).2) := by
  constructor
  · intro c hc
    have htab : c.table = r.config.tableName := by
      simp only [List.mem_append] at hc
      rcases hc with ((((h | h) | h) | h) | h)
      · exact findWith_calls r ns id res c h
      · exact findAllWith_calls r ns qres c h
      · exact saveWith_calls r ns e outcome c h
      · exact removeWith_calls r ns id outcome c h
      · exact clearWith_calls r ns commitErr c h
    exact ⟨htab, fun ns3 => htab ▸ tableName_ne_dbName r.config ns3⟩
  · refine ⟨?_, ?_, ?_, ?_, ?_⟩
    · unfold Repo.findWith
      cases r.factoryFn with
      | none => rfl
      | some m0 => cases res <;> rfl
    · unfold Repo.findAllWith
      cases r.factoryFn with
      | none => rfl
      | some m0 =>
        cases qres with
        | error ge => rfl
        | ok scans => cases scanRows m0 scans <;> rfl
    · unfold Repo.saveWith
      by_cases hg : (e.entityID == uuidNil) = true
      · simp [hg]
      · cases outcome with
        | err ge => simp [hg]
        | ok a re =>
          simp only [hg, Bool.false_eq_true, if_false]
          by_cases h2 : (re.isSome || a != 1) = true <;> simp [h2]
    · unfold Repo.removeWith
      cases outcome with
      | err ge => rfl
      | ok a re => by_cases h2 : (a != 1) = true <;> simp [h2]
    · unfold Repo.clearWith
      cases commitErr <;> rfl

/-- Witness for C7: a concrete call of `Find` targets the configured
table and differs from the namespace-suffixed name. -/
theorem table_name_static_witness :
    BackendCall.table (.getByID "models" 1) = repoW.config.tableName ∧
    BackendCall.table (.getByID "models" 1) ≠ dbName repoW.config "ns" ∧
    (repoW.saveWith "ns" e1W (.ok 1 none)).2 =
      (repoW.saveWith "" e1W (.ok 1 none)).2 := by
  have h := table_name_static repoW "ns" "" 1 e1W (.ok (fieldMap e1W))
      (.ok []) (.ok 1 none) none
  have hm := h.1 (.getByID "models" 1) (by decide)
  exact ⟨hm.1, hm.2 "ns", h.2.2.2.1⟩

/-- Claim C8 counterexample: with no factory set, `Save` of an entity with
a non-zero id returns nil — not a `ModelNotSet` error — after issuing its
upsert to the backend, and `Remove` issues its delete and reports
`EntityNotFound` rather than `ModelNotSet`; so `Save` and `Remove` do not
require the factory as the claim states. -/
theorem factory_unset_counterexample :
    rNoFactoryW.factoryFn = none ∧
    (rNoFactoryW.saveT "" e1W []).1 = none ∧
    (rNoFactoryW.saveT "" e1W []).2.2 = [.namedExec "models"] ∧
    (rNoFactoryW.removeWith "" 7 (.ok 0 none)).1 =
      some (.repoErr ⟨.ehErrEntityNotFound, none, ""⟩) ∧
    (rNoFactoryW.removeWith "" 7 (.ok 0 none)).2 =
      [.execDelete "models" 7] := by
  refine ⟨rfl, rfl, rfl, ?_, ?_⟩ <;> rfl

/-- Claim C8 (amended): before a factory is set, the read operations Find,
FindAll, FindWithFilter and FindWithFilterUsingIndex fail with a
`RepoError` of kind `ErrModelNotSet` and issue no backend call; `Save`
and `Remove` perform no factory check — past its id guard `Save` issues
the upsert (and succeeds when it reports one affected row) and `Remove`
always issues the delete. -/
theorem factory_unset_amended (r : Repo) (ns : String) (id : UUID)
    (e : Model) (res : Except GoErr Row)
    (qres : Except GoErr (List (Except GoErr Row)))
    (outcome : ExecOutcome) (expr fq : String) (ii : IndexInput)
    (h : r.factoryFn = none) :
    r.findWith ns id res =
      (.error (.repoErr ⟨.errModelNotSet, none, ns⟩), []) ∧
    r.findAllWith ns qres =
      (.error (.repoErr ⟨.errModelNotSet, none, ns⟩), []) ∧
    r.findWithFilter ns expr =
      (.error (.repoErr ⟨.errModelNotSet, none, ns⟩), []) ∧
    r.findWithFilterUsingIndex ns ii fq =
      (.error (.repoErr ⟨.errModelNotSet, none, ns⟩), []) ∧
    (e.entityID ≠ uuidNil →
      (r.saveWith ns e outcome).2 = [.namedExec r.config.tableName] ∧
      (r.saveWith ns e (.ok 1 none)).1 = none) ∧
    (r.removeWith ns id outcome).2 =
      [.execDelete r.config.tableName id] := by
  refine ⟨?_, ?_, ?_, ?_, ?_, ?_⟩
  · simp [Repo.findWith, h]
  · simp [Repo.findAllWith, h]
  · simp [Repo.findWithFilter, h]
  · simp [Repo.findWithFilterUsingIndex, h]
  · intro hid
    have hg : (e.entityID == uuidNil) = false := by simpa using hid
    refine ⟨?_, ?_⟩
    · cases outcome with
      | err ge => simp [Repo.saveWith, hg]
      | ok a re =>
        simp only [Repo.saveWith, hg, Bool.false_eq_true, if_false]
        by_cases h2 : (re.isSome || a != 1) = true <;> simp [h2]
    · simp [Repo.saveWith, hg]
  · cases outcome with
    | err ge => simp [Repo.removeWith]
    | ok a re =>
      simp only [Repo.removeWith]
      by_cases h2 : (a != 1) = true <;> simp [h2]

/-- Witness for the amended C8: a repository without factory rejects a
read with `ModelNotSet` and still lets a one-row `Save` through. -/
theorem factory_unset_amended_witness :
    rNoFactoryW.findWith "" 4 (.error .sqlErrNoRows) =
      (.error (.repoErr ⟨.errModelNotSet, none, ""⟩), []) ∧
    (rNoFactoryW.saveWith "" e1W (.ok 1 none)).1 = none := by
  have h := factory_unset_amended rNoFactoryW "" 4 e1W
      (.error .sqlErrNoRows) (.ok []) (.ok 1 none) "" ""
      ⟨"idx", "pk", "sk"⟩ rfl
  exact ⟨h.1, (h.2.2.2.2.1 (by decide)).2⟩

/-- Claim C9 counterexample: a row-scan failure inside `FindAll` is
returned as the bare underlying error, not as a `RepoError` envelope, so
not every non-nil error of the public operations is a `RepoError`. -/
theorem findAll_bare_error_counterexample :
    (repoW.findAllWith "ns1" (.ok [.error (.driver "scan failed")])).1 =
      .error (.bare (.driver "scan failed")) ∧
    (OpErr.bare (.driver "scan failed")).isRepoError = false :=
  ⟨rfl, rfl⟩

/-- Claim C9 (amended): every non-nil error returned by Find, FindAll,
FindWithFilter, FindWithFilterUsingIndex, Save, Remove and Clear is a
`RepoError` envelope carrying its kind, cause and the call namespace —
except a row-scan failure inside `FindAll`, which is returned as the bare
underlying scan error without the envelope. -/
theorem errors_are_repo_errors (r : Repo) (ns : String) (id : UUID)
    (e : Model) (res : Except GoErr Row) (qerr : GoErr)
    (scans : List (Except GoErr Row)) (outcome : ExecOutcome)
    (commitErr : Option GoErr) (expr fq : String) (ii : IndexInput) :
    (∀ oe, (r.findWith ns id res).1 = .error oe →
      oe.isRepoError = true ∧ oe.nsOf = some ns) ∧
    (∀ oe, (r.findAllWith ns (.error qerr)).1 = .error oe →
      oe.isRepoError = true ∧ oe.nsOf = some ns) ∧
    (∀ oe, (r.findAllWith ns (.ok scans)).1 = .error oe →
      (oe.isRepoError = true ∧ oe.nsOf = some ns) ∨
      (∃ ge, oe = .bare ge ∧ Except.error ge ∈ scans)) ∧
    (∀ oe, (r.findWithFilter ns expr).1 = .error oe →
      oe.isRepoError = true ∧ oe.nsOf = some ns) ∧
    (∀ oe, (r.findWithFilterUsingIndex ns ii fq).1 = .error oe →
      oe.isRepoError = true ∧ oe.nsOf = some ns) ∧
    (∀ oe, (r.saveWith ns e outcome).1 = some oe →
      oe.isRepoError = true ∧ oe.nsOf = some ns) ∧
    (∀ oe, (r.removeWith ns id outcome).1 = some oe →
      oe.isRepoError = true ∧ oe.nsOf = some ns) ∧
    (∀ oe, (r.clearWith ns commitErr).1 = some oe →
      oe.isRepoError = true ∧ oe.nsOf = some ns) := by
  refine ⟨?_, ?_, ?_, ?_, ?_, ?_, ?_, ?_⟩
  · intro oe h
    unfold Repo.findWith at h
    cases hf : r.factoryFn with
    | none =>
      simp [hf] at h
      simp [← h, OpErr.isRepoError, OpErr.nsOf]
    | some m0 =>
      cases res with
      | error ge =>
        simp [hf] at h
        simp [← h, OpErr.isRepoError, OpErr.nsOf]
      | ok row => simp [hf] at h
  · intro oe h
    unfold Repo.findAllWith at h
    cases hf : r.factoryFn with
    | none =>
      simp [hf] at h
      simp [← h, OpErr.isRepoError, OpErr.nsOf]
    | some m0 =>
      simp [hf] at h
      simp [← h, OpErr.isRepoError, OpErr.nsOf]
  · intro oe h
    unfold Repo.findAllWith at h
    cases hf : r.factoryFn with
    | none =>
      simp [hf] at h
      left
      simp [← h, OpErr.isRepoError, OpErr.nsOf]
    | some m0 =>
      simp only [hf] at h
      cases hs : scanRows m0 scans with
      | error ge =>
        rw [hs] at h
        simp at h
        right
        exact ⟨ge, h.symm, scanRows_error_mem m0 scans ge hs⟩
      | ok ms =>
        rw [hs] at h
        simp at h
  · intro oe h
    unfold Repo.findWithFilter at h
    cases hf : r.factoryFn with
    | none =>
      simp [hf] at h
      simp [← h, OpErr.isRepoError, OpErr.nsOf]
    | some m0 => simp [hf] at h
  · intro oe h
    unfold Repo.findWithFilterUsingIndex at h
    cases hf : r.factoryFn with
    | none =>
      simp [hf] at h
      simp [← h, OpErr.isRepoError, OpErr.nsOf]
    | some m0 => simp [hf] at h
  · intro oe h
    obtain ⟨be, rfl⟩ := saveWith_some r ns e outcome oe h
    exact ⟨rfl, rfl⟩
  · intro oe h
    obtain ⟨k, be, rfl⟩ := removeWith_some r ns id outcome oe h
    exact ⟨rfl, rfl⟩
  · intro oe h
    unfold Repo.clearWith at h
    cases commitErr with
    | none => simp at h
    | some ge =>
      simp at h
      simp [← h, OpErr.isRepoError, OpErr.nsOf]

/-- Witness for the amended C9: a concrete driver failure of `Find` comes
back as a `RepoError` envelope carrying the call namespace. -/
theorem errors_are_repo_errors_witness :
    (OpErr.repoErr
      ⟨.ehErrEntityNotFound, some (.driver "x"), "n"⟩).isRepoError = true ∧
    (OpErr.repoErr
      ⟨.ehErrEntityNotFound, some (.driver "x"), "n"⟩).nsOf = some "n" := by
  have h := errors_are_repo_errors repoW "n" 1 e1W (.error (.driver "x"))
      (.driver "q") [] (.ok 1 none) none "" "" ⟨"idx", "pk", "sk"⟩
  exact h.1 _ rfl

end EhPg
